import Mathlib

/-!
Verification of `libadiotp.c` (analogdevicesinc/libadiotp): a client library
for one-time-programmable storage behind a TEE, speaking to a trusted
application through the GlobalPlatform TEE Client API.

The TEE Client API transport (`TEEC_InvokeCommand` and the connection and
session calls) is an external collaborator: it is modelled as an oracle
function from the command identifier and the submitted `TEEC_Operation`
to a result status, an error-origin tag, and the operation as mutated by
the peer.  Each library function is embedded as a pure Lean function of
that oracle; pointer out-parameters become explicit initial values plus
returned final values, and `fprintf(stderr, ...)` calls become an explicit
list of print events.
-/

namespace Libadiotp

/-- C cast of an unsigned 32-bit value to a (32-bit two's-complement)
signed `int`, as performed by `return (int) res;` and by the assignments
of `value.a` / `value.b` into `int` variables. -/
def toInt32 (n : Nat) : Int :=
  if n % 2 ^ 32 < 2 ^ 31 then ((n % 2 ^ 32 : Nat) : Int)
  else ((n % 2 ^ 32 : Nat) : Int) - 2 ^ 32

/-- Modelled from errno.h (a system header, not under src/): on Linux
`EINVAL` is 22; the library returns `-EINVAL` on version incompatibility. -/
def EINVAL : Int := 22

/-- `TEEC_SUCCESS` is 0 in the TEE Client API. -/
def TEEC_SUCCESS : Nat := 0

/-- The TEE Client API parameter types used by the library
(`TEEC_NONE`, `TEEC_VALUE_INPUT`, `TEEC_VALUE_OUTPUT`,
`TEEC_MEMREF_TEMP_INPUT`, `TEEC_MEMREF_TEMP_OUTPUT`). -/
inductive PType where
  | tNone
  | valueInput
  | valueOutput
  | memrefTempInput
  | memrefTempOutput
deriving DecidableEq

/-- One slot of `TEEC_Operation.params`: the `value` member (`a`, `b`) and
the `tmpref` member (`buffer`, `size`).  A byte buffer is a list of byte
values. -/
structure Param where
  a : Nat
  b : Nat
  buffer : List Nat
  size : Nat
deriving DecidableEq

/-- The all-zero parameter slot produced by `memset(&op, 0, sizeof(op))`. -/
def Param.zero : Param := ⟨0, 0, [], 0⟩

/-- A `TEEC_Operation`: the `paramTypes` word (kept as the 4-tuple of types
given to `TEEC_PARAM_TYPES`) and the four parameter slots. -/
structure Operation where
  paramTypes : PType × PType × PType × PType
  p0 : Param
  p1 : Param
  p2 : Param
  p3 : Param
deriving DecidableEq

/-- The observable effect of one `TEEC_InvokeCommand` call: the returned
`TEEC_Result` (a `uint32_t`), the error-origin tag written through the
`origin` pointer, and the operation after the call (the transport and the
peer may update output value slots and the memref size and data). -/
structure InvokeOut where
  res : Nat
  origin : Nat
  op : Operation

/-- The transport oracle: what `TEEC_InvokeCommand` does on this session,
as a function of the command identifier and the submitted operation. -/
abbrev Transport := Nat → Operation → InvokeOut

/-- Modelled from the spec: the command identifiers `ADI_OTP_CMD_*` are
stable distinct numeric constants defined in `libadiotp.h`, which is not
under src/; the spec does not pin their numeric values, so they are
modelled as 0..6. -/
def ADI_OTP_CMD_VERSION : Nat := 0

/-- Modelled from the spec: see `ADI_OTP_CMD_VERSION`. -/
def ADI_OTP_CMD_READ : Nat := 1

/-- Modelled from the spec: see `ADI_OTP_CMD_VERSION`. -/
def ADI_OTP_CMD_WRITE : Nat := 2

/-- Modelled from the spec: see `ADI_OTP_CMD_VERSION`. -/
def ADI_OTP_CMD_INVALIDATE : Nat := 3

/-- Modelled from the spec: see `ADI_OTP_CMD_VERSION`. -/
def ADI_OTP_CMD_IS_VALID : Nat := 4

/-- Modelled from the spec: see `ADI_OTP_CMD_VERSION`. -/
def ADI_OTP_CMD_IS_WRITTEN : Nat := 5

/-- Modelled from the spec: see `ADI_OTP_CMD_VERSION`. -/
def ADI_OTP_CMD_LOCK : Nat := 6

/-- Modelled from the spec: `ADI_OTP_ID_lock` is the documented reserved
FieldID representing the global lock, defined in `libadiotp.h` (not under
src/); its numeric value is not pinned by the spec and no theorem below
depends on it. -/
def ADI_OTP_ID_lock : Nat := 0

/-- A diagnostic print event: the `fprintf(stderr, ...)` format string and
the integer arguments printed with it. -/
abbrev Print := String × List Int

/-- Result of `adi_otp_get_version`: the returned status, the final values
of the `*major` and `*minor` out-parameters, and the diagnostics printed. -/
structure GetVersionResult where
  ret : Int
  major : Int
  minor : Int
  prints : List Print
deriving DecidableEq

/-- Result of an operation with no out-parameters
(`adi_otp_write`, `adi_otp_invalidate`, `adi_otp_lock`). -/
structure StatusResult where
  ret : Int
  prints : List Print
deriving DecidableEq

/-- Result of `adi_otp_read`: the returned status, the buffer memory after
the call, the final value of `*len`, and the diagnostics printed. -/
structure ReadResult where
  ret : Int
  buf : List Nat
  len : Nat
  prints : List Print
deriving DecidableEq

/-- Result of `adi_otp_is_valid` / `adi_otp_is_written` /
`adi_otp_is_locked`: the returned status, the final value of the
`uint32_t` out-parameter, and the diagnostics printed. -/
structure FlagResult where
  ret : Int
  flag : Nat
  prints : List Print
deriving DecidableEq

/-- The operation submitted by `adi_otp_get_version`:
`TEEC_PARAM_TYPES(TEEC_VALUE_OUTPUT, TEEC_NONE, TEEC_NONE, TEEC_NONE)`
over a zeroed operation. -/
def version_op : Operation :=
  ⟨(PType.valueOutput, PType.tNone, PType.tNone, PType.tNone),
   Param.zero, Param.zero, Param.zero, Param.zero⟩

/-- `adi_otp_get_version(otp, major, minor)`: issues `ADI_OTP_CMD_VERSION`;
on transport failure prints the status and returns it cast to `int`,
leaving `*major` and `*minor` untouched; on success stores
`op.params[0].value.a` and `.b` and returns `TEEC_SUCCESS`. -/
def adi_otp_get_version (t : Transport) (major minor : Int) : GetVersionResult :=
  let out := t ADI_OTP_CMD_VERSION version_op
  if out.res ≠ TEEC_SUCCESS then
    { ret := toInt32 out.res, major := major, minor := minor,
      prints := [("OTP read failed, ret = %d\n", [toInt32 out.res])] }
  else
    { ret := (TEEC_SUCCESS : Int), major := toInt32 out.op.p0.a,
      minor := toInt32 out.op.p0.b, prints := [] }

/-- Result of `adi_otp_check_version`: returned status and diagnostics. -/
structure CheckVersionResult where
  ret : Int
  prints : List Print
deriving DecidableEq

/-- `adi_otp_check_version(otp)`: fetches the peer version (the local
`major`/`minor` variables are uninitialized, embedded as 0 — they are read
only after a successful fetch); passes a fetch failure through; returns
`-EINVAL` when the peer major differs from `ADI_OTP_MAJOR` or the peer
minor is below `ADI_OTP_MINOR`; otherwise 0.  The compiled-in constants
`ADI_OTP_MAJOR` and `ADI_OTP_MINOR` come from `libadiotp.h` (not under
src/) and are taken as parameters. -/
def adi_otp_check_version (t : Transport) (ADI_OTP_MAJOR ADI_OTP_MINOR : Int) :
    CheckVersionResult :=
  let gv := adi_otp_get_version t 0 0
  if gv.ret ≠ 0 then
    { ret := gv.ret, prints := gv.prints }
  else if gv.major ≠ ADI_OTP_MAJOR then
    { ret := -EINVAL,
      prints := gv.prints ++
        [("OTP major version mismatch: pTA version = %d, library version = %d\n",
          [gv.major, ADI_OTP_MAJOR])] }
  else if gv.minor < ADI_OTP_MINOR then
    { ret := -EINVAL,
      prints := gv.prints ++
        [("OTP minor version too old: pTA version = %d, library version = %d\n",
          [gv.minor, ADI_OTP_MINOR])] }
  else
    { ret := 0, prints := gv.prints }

/-- Resource-lifecycle events issued by `adi_otp_open` and
`adi_otp_close`: a successful `calloc`, a successful
`TEEC_InitializeContext`, a successful `TEEC_OpenSession`,
`TEEC_CloseSession`, `TEEC_FinalizeContext`, and `free`. -/
inductive Event where
  | alloc
  | initCtx
  | openSess
  | closeSess
  | finalizeCtx
  | free
deriving DecidableEq

/-- The opaque `struct adi_otp` handle; its `TEEC_Context` and
`TEEC_Session` members live inside the transport collaborator, so the
handle carries no data in this model. -/
def adi_otp : Type := Unit

instance : DecidableEq adi_otp := fun _ _ => isTrue rfl

/-- The environment `adi_otp_open` runs in: whether `calloc` succeeds, the
`TEEC_Result` of `TEEC_InitializeContext`, the `TEEC_Result` of
`TEEC_OpenSession`, and the transport used by the version check. -/
structure OpenEnv where
  callocOk : Bool
  initCtxRes : Nat
  openSessionRes : Nat
  transport : Transport

/-- `adi_otp_open()`: calloc, initialize context, open session against the
fixed `PTA_ADI_OTP_UUID`, then run `adi_otp_check_version`; on any failure
unwind via the `finalize:`/`cleanup:` labels and return `NULL`.  Returns
the handle (or `none`) paired with the trace of lifecycle events, in call
order.  `ADI_OTP_MAJOR`/`ADI_OTP_MINOR` are the compiled-in version
constants (see `adi_otp_check_version`). -/
def adi_otp_open (env : OpenEnv) (ADI_OTP_MAJOR ADI_OTP_MINOR : Int) :
    Option adi_otp × List Event :=
  if !env.callocOk then
    (none, [])
  else if env.initCtxRes ≠ TEEC_SUCCESS then
    (none, [Event.alloc, Event.free])
  else if env.openSessionRes ≠ TEEC_SUCCESS then
    (none, [Event.alloc, Event.initCtx, Event.finalizeCtx, Event.free])
  else if (adi_otp_check_version env.transport ADI_OTP_MAJOR ADI_OTP_MINOR).ret ≠ 0 then
    (none, [Event.alloc, Event.initCtx, Event.openSess, Event.finalizeCtx, Event.free])
  else
    (some (), [Event.alloc, Event.initCtx, Event.openSess])

/-- `adi_otp_close(otp)`: `NULL` is a no-op; otherwise close the session,
then finalize the context.  Returns the trace of lifecycle events. -/
def adi_otp_close (otp : Option adi_otp) : List Event :=
  match otp with
  | none => []
  | some _ => [Event.closeSess, Event.finalizeCtx]

/-- The operation submitted by `adi_otp_read`:
`TEEC_PARAM_TYPES(TEEC_VALUE_INPUT, TEEC_MEMREF_TEMP_OUTPUT, TEEC_NONE,
TEEC_NONE)` with `params[0].value.a = id`, `params[1].tmpref.buffer = buf`
and `params[1].tmpref.size = *len`. -/
def read_op (id : Nat) (buf : List Nat) (len : Nat) : Operation :=
  ⟨(PType.valueInput, PType.memrefTempOutput, PType.tNone, PType.tNone),
   { Param.zero with a := id },
   { Param.zero with buffer := buf, size := len },
   Param.zero, Param.zero⟩

/-- `adi_otp_read(otp, id, buf, len)`: submits `read_op id buf *len`; on
transport failure prints the status and returns it cast to `int`, leaving
`*len` untouched; on success stores the peer-reported actual size into
`*len` and returns 0.  The `buf` field is the buffer memory after the
call, which the transport owns in both cases. -/
def adi_otp_read (t : Transport) (id : Nat) (buf : List Nat) (len : Nat) :
    ReadResult :=
  let out := t ADI_OTP_CMD_READ (read_op id buf len)
  if out.res ≠ TEEC_SUCCESS then
    { ret := toInt32 out.res, buf := out.op.p1.buffer, len := len,
      prints := [("OTP read failed, ret = %d\n", [toInt32 out.res])] }
  else
    { ret := 0, buf := out.op.p1.buffer, len := out.op.p1.size, prints := [] }

/-- The operation submitted by `adi_otp_write`:
`TEEC_PARAM_TYPES(TEEC_VALUE_INPUT, TEEC_MEMREF_TEMP_INPUT, TEEC_NONE,
TEEC_NONE)` with `params[0].value.a = id`, `params[1].tmpref.buffer = buf`
and `params[1].tmpref.size = len`. -/
def write_op (id : Nat) (buf : List Nat) (len : Nat) : Operation :=
  ⟨(PType.valueInput, PType.memrefTempInput, PType.tNone, PType.tNone),
   { Param.zero with a := id },
   { Param.zero with buffer := buf, size := len },
   Param.zero, Param.zero⟩

/-- `adi_otp_write(otp, id, buf, len)`: submits `write_op id buf len`; on
transport failure prints the status and returns it cast to `int`; on
success returns 0. -/
def adi_otp_write (t : Transport) (id : Nat) (buf : List Nat) (len : Nat) :
    StatusResult :=
  let out := t ADI_OTP_CMD_WRITE (write_op id buf len)
  if out.res ≠ TEEC_SUCCESS then
    { ret := toInt32 out.res,
      prints := [("OTP write failed, ret = %d\n", [toInt32 out.res])] }
  else
    { ret := 0, prints := [] }

/-- The operation submitted by `adi_otp_invalidate`:
`TEEC_PARAM_TYPES(TEEC_VALUE_INPUT, TEEC_NONE, TEEC_NONE, TEEC_NONE)`
with `params[0].value.a = id`. -/
def invalidate_op (id : Nat) : Operation :=
  ⟨(PType.valueInput, PType.tNone, PType.tNone, PType.tNone),
   { Param.zero with a := id }, Param.zero, Param.zero, Param.zero⟩

/-- `adi_otp_invalidate(otp, id)`: submits `invalidate_op id`; on transport
failure prints the status and returns it cast to `int`; on success 0. -/
def adi_otp_invalidate (t : Transport) (id : Nat) : StatusResult :=
  let out := t ADI_OTP_CMD_INVALIDATE (invalidate_op id)
  if out.res ≠ TEEC_SUCCESS then
    { ret := toInt32 out.res,
      prints := [("OTP invalidate failed, ret = %d\n", [toInt32 out.res])] }
  else
    { ret := 0, prints := [] }

/-- The operation submitted by `adi_otp_is_valid`:
`TEEC_PARAM_TYPES(TEEC_VALUE_INPUT, TEEC_VALUE_OUTPUT, TEEC_NONE,
TEEC_NONE)` with `params[0].value.a = id`. -/
def is_valid_op (id : Nat) : Operation :=
  ⟨(PType.valueInput, PType.valueOutput, PType.tNone, PType.tNone),
   { Param.zero with a := id }, Param.zero, Param.zero, Param.zero⟩

/-- `adi_otp_is_valid(otp, id, valid)`: submits `is_valid_op id`; on
transport failure prints the status and returns it cast to `int`, leaving
`*valid` untouched; on success stores `op.params[1].value.a` into `*valid`
and returns 0. -/
def adi_otp_is_valid (t : Transport) (id : Nat) (valid : Nat) : FlagResult :=
  let out := t ADI_OTP_CMD_IS_VALID (is_valid_op id)
  if out.res ≠ TEEC_SUCCESS then
    { ret := toInt32 out.res, flag := valid,
      prints := [("OTP is_valid failed, ret = %d\n", [toInt32 out.res])] }
  else
    { ret := 0, flag := out.op.p1.a, prints := [] }

/-- The operation submitted by `adi_otp_is_written`: same shape as
`is_valid_op` — `TEEC_PARAM_TYPES(TEEC_VALUE_INPUT, TEEC_VALUE_OUTPUT,
TEEC_NONE, TEEC_NONE)` with `params[0].value.a = id`. -/
def is_written_op (id : Nat) : Operation :=
  ⟨(PType.valueInput, PType.valueOutput, PType.tNone, PType.tNone),
   { Param.zero with a := id }, Param.zero, Param.zero, Param.zero⟩

/-- `adi_otp_is_written(otp, id, written)`: submits `is_written_op id`; on
transport failure prints the status and returns it cast to `int`, leaving
`*written` untouched; on success stores `op.params[1].value.a` into
`*written` and returns 0. -/
def adi_otp_is_written (t : Transport) (id : Nat) (written : Nat) : FlagResult :=
  let out := t ADI_OTP_CMD_IS_WRITTEN (is_written_op id)
  if out.res ≠ TEEC_SUCCESS then
    { ret := toInt32 out.res, flag := written,
      prints := [("OTP is_written failed, ret = %d\n", [toInt32 out.res])] }
  else
    { ret := 0, flag := out.op.p1.a, prints := [] }

/-- `adi_otp_is_locked(otp, locked)`:
`return adi_otp_is_written(otp, ADI_OTP_ID_lock, locked);`. -/
def adi_otp_is_locked (t : Transport) (locked : Nat) : FlagResult :=
  adi_otp_is_written t ADI_OTP_ID_lock locked

/-- The operation submitted by `adi_otp_lock`:
`TEEC_PARAM_TYPES(TEEC_NONE, TEEC_NONE, TEEC_NONE, TEEC_NONE)` over a
zeroed operation. -/
def lock_op : Operation :=
  ⟨(PType.tNone, PType.tNone, PType.tNone, PType.tNone),
   Param.zero, Param.zero, Param.zero, Param.zero⟩

/-- `adi_otp_lock(otp)`: submits `lock_op`; on transport failure prints
the status and returns it cast to `int`; on success returns 0. -/
def adi_otp_lock (t : Transport) : StatusResult :=
  let out := t ADI_OTP_CMD_LOCK lock_op
  if out.res ≠ TEEC_SUCCESS then
    { ret := toInt32 out.res,
      prints := [("OTP lock failed, ret = %d\n", [toInt32 out.res])] }
  else
    { ret := 0, prints := [] }

/-- The spec-side definition of `isLocked`, following the spec's words:
"implemented as `isWritten(session, RESERVED_LOCK_ID)`", where the
reserved lock FieldID is `ADI_OTP_ID_lock`. -/
def isLocked_spec (t : Transport) (locked : Nat) : FlagResult :=
  adi_otp_is_written t ADI_OTP_ID_lock locked

/-- All integers appearing in a list of diagnostic print events, in
order. -/
def printedInts (ps : List Print) : List Int :=
  ps.foldr (fun p acc => p.2 ++ acc) []

/-! ### Basic facts about the `uint32` → `int` cast -/

theorem toInt32_eq_zero_iff {n : Nat} (h : n < 2 ^ 32) : toInt32 n = 0 ↔ n = 0 := by
  unfold toInt32
  rw [Nat.mod_eq_of_lt h]
  split <;> omega

theorem toInt32_ne_zero {n : Nat} (hlt : n < 2 ^ 32) (hne : n ≠ 0) : toInt32 n ≠ 0 :=
  fun hz => hne ((toInt32_eq_zero_iff hlt).mp hz)

/-! ### Unfolding lemmas: each operation on transport success and failure -/

theorem get_version_fail (t : Transport) (major minor : Int)
    (h : (t ADI_OTP_CMD_VERSION version_op).res ≠ TEEC_SUCCESS) :
    adi_otp_get_version t major minor =
      { ret := toInt32 (t ADI_OTP_CMD_VERSION version_op).res, major := major,
        minor := minor,
        prints := [("OTP read failed, ret = %d\n",
          [toInt32 (t ADI_OTP_CMD_VERSION version_op).res])] } := by
  simp [adi_otp_get_version, h]

theorem get_version_succ (t : Transport) (major minor : Int)
    (h : (t ADI_OTP_CMD_VERSION version_op).res = TEEC_SUCCESS) :
    adi_otp_get_version t major minor =
      { ret := 0, major := toInt32 (t ADI_OTP_CMD_VERSION version_op).op.p0.a,
        minor := toInt32 (t ADI_OTP_CMD_VERSION version_op).op.p0.b,
        prints := [] } := by
  simp [adi_otp_get_version, h, TEEC_SUCCESS]

theorem read_fail (t : Transport) (id : Nat) (buf : List Nat) (len : Nat)
    (h : (t ADI_OTP_CMD_READ (read_op id buf len)).res ≠ TEEC_SUCCESS) :
    adi_otp_read t id buf len =
      { ret := toInt32 (t ADI_OTP_CMD_READ (read_op id buf len)).res,
        buf := (t ADI_OTP_CMD_READ (read_op id buf len)).op.p1.buffer, len := len,
        prints := [("OTP read failed, ret = %d\n",
          [toInt32 (t ADI_OTP_CMD_READ (read_op id buf len)).res])] } := by
  simp [adi_otp_read, h]

theorem read_succ (t : Transport) (id : Nat) (buf : List Nat) (len : Nat)
    (h : (t ADI_OTP_CMD_READ (read_op id buf len)).res = TEEC_SUCCESS) :
    adi_otp_read t id buf len =
      { ret := 0, buf := (t ADI_OTP_CMD_READ (read_op id buf len)).op.p1.buffer,
        len := (t ADI_OTP_CMD_READ (read_op id buf len)).op.p1.size,
        prints := [] } := by
  simp [adi_otp_read, h, TEEC_SUCCESS]

theorem write_fail (t : Transport) (id : Nat) (buf : List Nat) (len : Nat)
    (h : (t ADI_OTP_CMD_WRITE (write_op id buf len)).res ≠ TEEC_SUCCESS) :
    adi_otp_write t id buf len =
      { ret := toInt32 (t ADI_OTP_CMD_WRITE (write_op id buf len)).res,
        prints := [("OTP write failed, ret = %d\n",
          [toInt32 (t ADI_OTP_CMD_WRITE (write_op id buf len)).res])] } := by
  simp [adi_otp_write, h]

theorem write_succ (t : Transport) (id : Nat) (buf : List Nat) (len : Nat)
    (h : (t ADI_OTP_CMD_WRITE (write_op id buf len)).res = TEEC_SUCCESS) :
    adi_otp_write t id buf len = { ret := 0, prints := [] } := by
  simp [adi_otp_write, h, TEEC_SUCCESS]

theorem invalidate_fail (t : Transport) (id : Nat)
    (h : (t ADI_OTP_CMD_INVALIDATE (invalidate_op id)).res ≠ TEEC_SUCCESS) :
    adi_otp_invalidate t id =
      { ret := toInt32 (t ADI_OTP_CMD_INVALIDATE (invalidate_op id)).res,
        prints := [("OTP invalidate failed, ret = %d\n",
          [toInt32 (t ADI_OTP_CMD_INVALIDATE (invalidate_op id)).res])] } := by
  simp [adi_otp_invalidate, h]

theorem invalidate_succ (t : Transport) (id : Nat)
    (h : (t ADI_OTP_CMD_INVALIDATE (invalidate_op id)).res = TEEC_SUCCESS) :
    adi_otp_invalidate t id = { ret := 0, prints := [] } := by
  simp [adi_otp_invalidate, h, TEEC_SUCCESS]

theorem is_valid_fail (t : Transport) (id : Nat) (valid : Nat)
    (h : (t ADI_OTP_CMD_IS_VALID (is_valid_op id)).res ≠ TEEC_SUCCESS) :
    adi_otp_is_valid t id valid =
      { ret := toInt32 (t ADI_OTP_CMD_IS_VALID (is_valid_op id)).res, flag := valid,
        prints := [("OTP is_valid failed, ret = %d\n",
          [toInt32 (t ADI_OTP_CMD_IS_VALID (is_valid_op id)).res])] } := by
  simp [adi_otp_is_valid, h]

theorem is_valid_succ (t : Transport) (id : Nat) (valid : Nat)
    (h : (t ADI_OTP_CMD_IS_VALID (is_valid_op id)).res = TEEC_SUCCESS) :
    adi_otp_is_valid t id valid =
      { ret := 0, flag := (t ADI_OTP_CMD_IS_VALID (is_valid_op id)).op.p1.a,
        prints := [] } := by
  simp [adi_otp_is_valid, h, TEEC_SUCCESS]

theorem is_written_fail (t : Transport) (id : Nat) (written : Nat)
    (h : (t ADI_OTP_CMD_IS_WRITTEN (is_written_op id)).res ≠ TEEC_SUCCESS) :
    adi_otp_is_written t id written =
      { ret := toInt32 (t ADI_OTP_CMD_IS_WRITTEN (is_written_op id)).res,
        flag := written,
        prints := [("OTP is_written failed, ret = %d\n",
          [toInt32 (t ADI_OTP_CMD_IS_WRITTEN (is_written_op id)).res])] } := by
  simp [adi_otp_is_written, h]

theorem is_written_succ (t : Transport) (id : Nat) (written : Nat)
    (h : (t ADI_OTP_CMD_IS_WRITTEN (is_written_op id)).res = TEEC_SUCCESS) :
    adi_otp_is_written t id written =
      { ret := 0, flag := (t ADI_OTP_CMD_IS_WRITTEN (is_written_op id)).op.p1.a,
        prints := [] } := by
  simp [adi_otp_is_written, h, TEEC_SUCCESS]

theorem lock_fail (t : Transport)
    (h : (t ADI_OTP_CMD_LOCK lock_op).res ≠ TEEC_SUCCESS) :
    adi_otp_lock t =
      { ret := toInt32 (t ADI_OTP_CMD_LOCK lock_op).res,
        prints := [("OTP lock failed, ret = %d\n",
          [toInt32 (t ADI_OTP_CMD_LOCK lock_op).res])] } := by
  simp [adi_otp_lock, h]

theorem lock_succ (t : Transport)
    (h : (t ADI_OTP_CMD_LOCK lock_op).res = TEEC_SUCCESS) :
    adi_otp_lock t = { ret := 0, prints := [] } := by
  simp [adi_otp_lock, h, TEEC_SUCCESS]

/-- `adi_otp_check_version` when the version fetch succeeded: the whole
result is decided by the peer-reported major and minor. -/
theorem check_version_of_success (t : Transport) (MAJ MIN : Int)
    (hres : (t ADI_OTP_CMD_VERSION version_op).res = TEEC_SUCCESS) :
    (adi_otp_check_version t MAJ MIN).ret =
      if toInt32 (t ADI_OTP_CMD_VERSION version_op).op.p0.a ≠ MAJ then -EINVAL
      else if toInt32 (t ADI_OTP_CMD_VERSION version_op).op.p0.b < MIN then -EINVAL
      else 0 := by
  by_cases hmaj : toInt32 (t ADI_OTP_CMD_VERSION version_op).op.p0.a = MAJ <;>
    by_cases hmin : toInt32 (t ADI_OTP_CMD_VERSION version_op).op.p0.b < MIN <;>
      simp [adi_otp_check_version, get_version_succ t 0 0 hres, hmaj, hmin]

/-- `adi_otp_check_version` when the version fetch failed with a status
whose `int` cast is nonzero: the fetch status is passed through. -/
theorem check_version_of_fail (t : Transport) (MAJ MIN : Int)
    (hres : (t ADI_OTP_CMD_VERSION version_op).res ≠ TEEC_SUCCESS)
    (hne : toInt32 (t ADI_OTP_CMD_VERSION version_op).res ≠ 0) :
    (adi_otp_check_version t MAJ MIN).ret =
      toInt32 (t ADI_OTP_CMD_VERSION version_op).res := by
  rw [adi_otp_check_version, get_version_fail t 0 0 hres]
  simp [hne]

/-! ### Concrete transports and environments used by witnesses -/

/-- A transport that reports success and leaves the operation as
submitted (so the peer reports version (0, 0) and zero flags). -/
def echoTransport : Transport := fun _ op => ⟨0, 0, op⟩

/-- A transport on which every invocation fails with status 5 and
origin 7. -/
def failTransport : Transport := fun _ op => ⟨5, 7, op⟩

/-- Like `failTransport` but with origin 99: used to show results do not
depend on the origin tag. -/
def failTransport2 : Transport := fun _ op => ⟨5, 99, op⟩

/-- A successful transport whose peer reports version (2, 9), flag value 1,
and a read result of 2 bytes `[10, 11]`. -/
def peerTransport : Transport := fun _ op =>
  ⟨0, 0,
    { op with
      p0 := { op.p0 with a := 2, b := 9 },
      p1 := { op.p1 with a := 1, size := 2, buffer := [10, 11] } }⟩

/-- A successful transport whose peer reports version major 2 (and
minor 0). -/
def badMajorTransport : Transport := fun _ op =>
  ⟨0, 0, { op with p0 := { op.p0 with a := 2 } }⟩

/-- An open environment where allocation, context initialization and
session open all succeed, but the peer reports major 2. -/
def badMajorEnv : OpenEnv := ⟨true, 0, 0, badMajorTransport⟩

theorem echoTransport_wf (c : Nat) (op : Operation) :
    (echoTransport c op).res < 2 ^ 32 := of_decide_eq_true rfl

theorem failTransport_wf (c : Nat) (op : Operation) :
    (failTransport c op).res < 2 ^ 32 := of_decide_eq_true rfl

/-! ### Claims -/

/-- C1: When the peer reports version (major, minor), the version gate run
inside open returns the distinguished invalid-argument error `-EINVAL`
exactly when the peer major differs from the compiled-in `ADI_OTP_MAJOR`
(for any minor), or the majors agree and the peer minor is strictly below
the compiled-in `ADI_OTP_MINOR`; and it returns 0 exactly when the majors
agree and the peer minor is at least the compiled-in minor. -/
theorem check_version_gate (t : Transport) (MAJ MIN major minor : Int)
    (hres : (t ADI_OTP_CMD_VERSION version_op).res = TEEC_SUCCESS)
    (hmaj : toInt32 (t ADI_OTP_CMD_VERSION version_op).op.p0.a = major)
    (hmin : toInt32 (t ADI_OTP_CMD_VERSION version_op).op.p0.b = minor) :
    ((adi_otp_check_version t MAJ MIN).ret = -EINVAL ↔
      (major ≠ MAJ ∨ (major = MAJ ∧ minor < MIN)))
    ∧ ((adi_otp_check_version t MAJ MIN).ret = 0 ↔ (major = MAJ ∧ MIN ≤ minor)) := by
  rw [check_version_of_success t MAJ MIN hres, hmaj, hmin]
  by_cases h1 : major = MAJ <;> by_cases h2 : minor < MIN <;>
    (simp [h1, h2, EINVAL]; try omega)

/-- Witness for C1: against `badMajorTransport` (peer reports major 2,
minor 0) with compiled-in version (1, 0), the gate rejects with
`-EINVAL`. -/
theorem check_version_gate_witness :
    (adi_otp_check_version badMajorTransport 1 0).ret = -EINVAL :=
  (check_version_gate badMajorTransport 1 0 2 0 rfl (by decide) (by decide)).1.mpr
    (Or.inl (by decide))

/-- C2: the claim fails on the code.  In the environment `badMajorEnv`
(allocation, context initialization and session open all succeed; the peer
reports major 2 against compiled-in major 1) the version check fails and
open returns no handle, but the unwind path runs only
`TEEC_FinalizeContext` and `free`: the session opened by
`TEEC_OpenSession` is never closed with `TEEC_CloseSession`, although the
claim says both the session and the connection are finalized. -/
theorem open_version_fail_no_close_session :
    (adi_otp_open badMajorEnv 1 0).1 = none ∧
    (adi_otp_open badMajorEnv 1 0).2 =
      [Event.alloc, Event.initCtx, Event.openSess, Event.finalizeCtx, Event.free] ∧
    Event.openSess ∈ (adi_otp_open badMajorEnv 1 0).2 ∧
    Event.closeSess ∉ (adi_otp_open badMajorEnv 1 0).2 := by decide

/-- C5: `adi_otp_is_locked` is extensionally equal to the spec-side
definition `isWritten(session, RESERVED_LOCK_ID)`: same returned status,
same final out-parameter value, same diagnostics, for every transport,
error included. -/
theorem is_locked_refines_spec (t : Transport) (locked : Nat) :
    adi_otp_is_locked t locked = isLocked_spec t locked := rfl

/-- C6: `adi_otp_close` on an absent handle performs no lifecycle action;
on a live handle it closes the session and then finalizes the context, in
that order; in both cases the function returns only the trace (void in C,
no status). -/
theorem close_contract :
    adi_otp_close none = [] ∧
    ∀ h : adi_otp, adi_otp_close (some h) = [Event.closeSess, Event.finalizeCtx] :=
  ⟨rfl, fun _ => rfl⟩

/-- C8: the seven command identifiers are pairwise distinct, and each
command is encoded with its fixed parameter shape: VERSION receives one
value pair and sends nothing; READ sends the FieldID as a value plus an
output memref whose submitted size is the capacity; WRITE sends the
FieldID as a value plus an input memref of exactly the supplied length;
INVALIDATE sends only the FieldID; IS_VALID and IS_WRITTEN send the
FieldID and receive one value; LOCK sends and receives no parameters. -/
theorem command_codec :
    ([ADI_OTP_CMD_VERSION, ADI_OTP_CMD_READ, ADI_OTP_CMD_WRITE,
      ADI_OTP_CMD_INVALIDATE, ADI_OTP_CMD_IS_VALID, ADI_OTP_CMD_IS_WRITTEN,
      ADI_OTP_CMD_LOCK] : List Nat).Nodup
    ∧ version_op.paramTypes =
        (PType.valueOutput, PType.tNone, PType.tNone, PType.tNone)
    ∧ version_op.p0 = Param.zero
    ∧ (∀ id buf len, (read_op id buf len).paramTypes =
        (PType.valueInput, PType.memrefTempOutput, PType.tNone, PType.tNone) ∧
        (read_op id buf len).p0.a = id ∧ (read_op id buf len).p1.buffer = buf ∧
        (read_op id buf len).p1.size = len)
    ∧ (∀ id buf len, (write_op id buf len).paramTypes =
        (PType.valueInput, PType.memrefTempInput, PType.tNone, PType.tNone) ∧
        (write_op id buf len).p0.a = id ∧ (write_op id buf len).p1.buffer = buf ∧
        (write_op id buf len).p1.size = len)
    ∧ (∀ id, (invalidate_op id).paramTypes =
        (PType.valueInput, PType.tNone, PType.tNone, PType.tNone) ∧
        (invalidate_op id).p0.a = id)
    ∧ (∀ id, (is_valid_op id).paramTypes =
        (PType.valueInput, PType.valueOutput, PType.tNone, PType.tNone) ∧
        (is_valid_op id).p0.a = id)
    ∧ (∀ id, (is_written_op id).paramTypes =
        (PType.valueInput, PType.valueOutput, PType.tNone, PType.tNone) ∧
        (is_written_op id).p0.a = id)
    ∧ lock_op.paramTypes = (PType.tNone, PType.tNone, PType.tNone, PType.tNone) :=
  ⟨by decide, rfl, rfl,
   fun _ _ _ => ⟨rfl, rfl, rfl, rfl⟩,
   fun _ _ _ => ⟨rfl, rfl, rfl, rfl⟩,
   fun _ => ⟨rfl, rfl⟩,
   fun _ => ⟨rfl, rfl⟩,
   fun _ => ⟨rfl, rfl⟩,
   rfl⟩

/-- C3: every transport failure of every operation is returned to the
caller as exactly the transport status cast to `int` (the pass-through is
verbatim, with no retry or local recovery: the result is a pure function
of the single transport response); for the version check, besides this
pass-through, the only other possible return values are the locally
synthesized `-EINVAL` and success 0. -/
theorem error_passthrough (t : Transport) (MAJ MIN major minor : Int)
    (id : Nat) (buf : List Nat) (len v w : Nat)
    (hwf : ∀ c op, (t c op).res < 2 ^ 32) :
    ((t ADI_OTP_CMD_VERSION version_op).res ≠ TEEC_SUCCESS →
      (adi_otp_get_version t major minor).ret =
        toInt32 (t ADI_OTP_CMD_VERSION version_op).res ∧
      (adi_otp_check_version t MAJ MIN).ret =
        toInt32 (t ADI_OTP_CMD_VERSION version_op).res)
    ∧ ((t ADI_OTP_CMD_READ (read_op id buf len)).res ≠ TEEC_SUCCESS →
      (adi_otp_read t id buf len).ret =
        toInt32 (t ADI_OTP_CMD_READ (read_op id buf len)).res)
    ∧ ((t ADI_OTP_CMD_WRITE (write_op id buf len)).res ≠ TEEC_SUCCESS →
      (adi_otp_write t id buf len).ret =
        toInt32 (t ADI_OTP_CMD_WRITE (write_op id buf len)).res)
    ∧ ((t ADI_OTP_CMD_INVALIDATE (invalidate_op id)).res ≠ TEEC_SUCCESS →
      (adi_otp_invalidate t id).ret =
        toInt32 (t ADI_OTP_CMD_INVALIDATE (invalidate_op id)).res)
    ∧ ((t ADI_OTP_CMD_IS_VALID (is_valid_op id)).res ≠ TEEC_SUCCESS →
      (adi_otp_is_valid t id v).ret =
        toInt32 (t ADI_OTP_CMD_IS_VALID (is_valid_op id)).res)
    ∧ ((t ADI_OTP_CMD_IS_WRITTEN (is_written_op id)).res ≠ TEEC_SUCCESS →
      (adi_otp_is_written t id w).ret =
        toInt32 (t ADI_OTP_CMD_IS_WRITTEN (is_written_op id)).res)
    ∧ ((t ADI_OTP_CMD_IS_WRITTEN (is_written_op ADI_OTP_ID_lock)).res ≠ TEEC_SUCCESS →
      (adi_otp_is_locked t w).ret =
        toInt32 (t ADI_OTP_CMD_IS_WRITTEN (is_written_op ADI_OTP_ID_lock)).res)
    ∧ ((t ADI_OTP_CMD_LOCK lock_op).res ≠ TEEC_SUCCESS →
      (adi_otp_lock t).ret = toInt32 (t ADI_OTP_CMD_LOCK lock_op).res)
    ∧ ((adi_otp_check_version t MAJ MIN).ret =
        toInt32 (t ADI_OTP_CMD_VERSION version_op).res ∨
       (adi_otp_check_version t MAJ MIN).ret = -EINVAL ∨
       (adi_otp_check_version t MAJ MIN).ret = 0) := by
  refine ⟨fun h => ⟨?_, ?_⟩, fun h => ?_, fun h => ?_, fun h => ?_, fun h => ?_,
    fun h => ?_, fun h => ?_, fun h => ?_, ?_⟩
  · rw [get_version_fail t major minor h]
  · exact check_version_of_fail t MAJ MIN h
      (toInt32_ne_zero (hwf ADI_OTP_CMD_VERSION version_op)
        (by simpa [TEEC_SUCCESS] using h))
  · rw [read_fail t id buf len h]
  · rw [write_fail t id buf len h]
  · rw [invalidate_fail t id h]
  · rw [is_valid_fail t id v h]
  · rw [is_written_fail t id w h]
  · show (adi_otp_is_written t ADI_OTP_ID_lock w).ret = _
    rw [is_written_fail t ADI_OTP_ID_lock w h]
  · rw [lock_fail t h]
  · by_cases hs : (t ADI_OTP_CMD_VERSION version_op).res = TEEC_SUCCESS
    · rw [check_version_of_success t MAJ MIN hs]
      split
      · exact Or.inr (Or.inl rfl)
      · split
        · exact Or.inr (Or.inl rfl)
        · exact Or.inr (Or.inr rfl)
    · exact Or.inl (check_version_of_fail t MAJ MIN hs
        (toInt32_ne_zero (hwf ADI_OTP_CMD_VERSION version_op)
          (by simpa [TEEC_SUCCESS] using hs)))

/-- Witness for C3: on `failTransport` (status 5 on every invocation) the
operations return exactly 5. -/
theorem error_passthrough_witness :
    (adi_otp_get_version failTransport 0 0).ret = 5 ∧
    (adi_otp_check_version failTransport 1 0).ret = 5 ∧
    (adi_otp_read failTransport 3 [] 4).ret = 5 ∧
    (adi_otp_lock failTransport).ret = 5 := by
  have h := error_passthrough failTransport 1 0 0 0 3 [] 4 0 0 failTransport_wf
  have h1 := h.1 (by decide)
  exact ⟨h1.1.trans (by decide), h1.2.trans (by decide),
    (h.2.1 (by decide)).trans (by decide),
    (h.2.2.2.2.2.2.2.1 (by decide)).trans (by decide)⟩

/-- C4: read submits the field id as `params[0].value.a` and the
caller-supplied capacity as `params[1].tmpref.size`; on success it
overwrites the caller's length variable with the size reported back by the
peer, which (for a conforming peer, reporting no more than the submitted
capacity) does not exceed that capacity, and returns the peer's data. -/
theorem read_contract (t : Transport) (id : Nat) (buf : List Nat) (len : Nat)
    (hconf : (t ADI_OTP_CMD_READ (read_op id buf len)).op.p1.size ≤
      (read_op id buf len).p1.size) :
    ((read_op id buf len).p0.a = id ∧ (read_op id buf len).p1.size = len ∧
      (read_op id buf len).p1.buffer = buf)
    ∧ ((t ADI_OTP_CMD_READ (read_op id buf len)).res = TEEC_SUCCESS →
      (adi_otp_read t id buf len).len =
        (t ADI_OTP_CMD_READ (read_op id buf len)).op.p1.size ∧
      (adi_otp_read t id buf len).len ≤ len ∧
      (adi_otp_read t id buf len).buf =
        (t ADI_OTP_CMD_READ (read_op id buf len)).op.p1.buffer) := by
  refine ⟨⟨rfl, rfl, rfl⟩, fun h => ?_⟩
  rw [read_succ t id buf len h]
  exact ⟨rfl, hconf, rfl⟩

/-- Witness for C4: on `peerTransport` (success, reported size 2) a read
with capacity 4 stores length 2, within the capacity. -/
theorem read_contract_witness :
    (adi_otp_read peerTransport 3 [0, 0, 0, 0] 4).len = 2 ∧
    (adi_otp_read peerTransport 3 [0, 0, 0, 0] 4).len ≤ 4 := by
  have h := (read_contract peerTransport 3 [0, 0, 0, 0] 4 (by decide)).2 rfl
  exact ⟨h.1.trans (by decide), h.2.1⟩

/-- C7 counterexample: the claim that a failing invocation surfaces the
transport's origin tag via diagnostic printing is false.  On
`failTransport` the invocation fails with status 5 and origin 7; the
failing read prints exactly the status 5, and the origin 7 appears
nowhere in the diagnostic output (nor in the returned value). -/
theorem origin_not_printed_cex :
    (failTransport ADI_OTP_CMD_READ (read_op 3 [] 4)).origin = 7 ∧
    (adi_otp_read failTransport 3 [] 4).ret = 5 ∧
    printedInts (adi_otp_read failTransport 3 [] 4).prints = [5] ∧
    (7 : Int) ∉ printedInts (adi_otp_read failTransport 3 [] 4).prints := by decide

/-- C7 amended: on a failing invocation the program prints the transport
status code diagnostically, and the origin tag is dropped entirely —
neither the returned value nor the diagnostic output of any operation
depends on it: two transports agreeing on status and operation effect but
differing arbitrarily in origin produce identical results. -/
theorem origin_dropped (t u : Transport) (MAJ MIN major minor : Int)
    (id : Nat) (buf : List Nat) (len v w : Nat)
    (hagree : ∀ c op, (t c op).res = (u c op).res ∧ (t c op).op = (u c op).op) :
    adi_otp_get_version t major minor = adi_otp_get_version u major minor
    ∧ adi_otp_check_version t MAJ MIN = adi_otp_check_version u MAJ MIN
    ∧ adi_otp_read t id buf len = adi_otp_read u id buf len
    ∧ adi_otp_write t id buf len = adi_otp_write u id buf len
    ∧ adi_otp_invalidate t id = adi_otp_invalidate u id
    ∧ adi_otp_is_valid t id v = adi_otp_is_valid u id v
    ∧ adi_otp_is_written t id w = adi_otp_is_written u id w
    ∧ adi_otp_is_locked t w = adi_otp_is_locked u w
    ∧ adi_otp_lock t = adi_otp_lock u
    ∧ ((t ADI_OTP_CMD_READ (read_op id buf len)).res ≠ TEEC_SUCCESS →
      (adi_otp_read t id buf len).prints =
        [("OTP read failed, ret = %d\n",
          [toInt32 (t ADI_OTP_CMD_READ (read_op id buf len)).res])]) := by
  have hres : ∀ c op, (t c op).res = (u c op).res := fun c op => (hagree c op).1
  have hop : ∀ c op, (t c op).op = (u c op).op := fun c op => (hagree c op).2
  refine ⟨?_, ?_, ?_, ?_, ?_, ?_, ?_, ?_, ?_, fun h => ?_⟩
  · simp only [adi_otp_get_version, hres, hop]
  · simp only [adi_otp_check_version, adi_otp_get_version, hres, hop]
  · simp only [adi_otp_read, hres, hop]
  · simp only [adi_otp_write, hres, hop]
  · simp only [adi_otp_invalidate, hres, hop]
  · simp only [adi_otp_is_valid, hres, hop]
  · simp only [adi_otp_is_written, hres, hop]
  · simp only [adi_otp_is_locked, adi_otp_is_written, hres, hop]
  · simp only [adi_otp_lock, hres, hop]
  · rw [read_fail t id buf len h]

/-- Witness for C7's amended claim: `failTransport2` differs from
`failTransport` only in the origin tag (99 against 7); a failing read
gives identical results on both. -/
theorem origin_dropped_witness :
    adi_otp_read failTransport2 3 [] 4 = adi_otp_read failTransport 3 [] 4 :=
  (origin_dropped failTransport2 failTransport 0 0 0 0 3 [] 4 0 0
    (fun _ _ => ⟨rfl, rfl⟩)).2.2.1

/-- C9: a failing invocation leaves every caller-visible output parameter
unmodified: get_version's `*major` and `*minor`, read's `*len`,
is_valid's `*valid` and is_written's `*written` keep their prior values
whenever the transport reports failure. -/
theorem outputs_unchanged_on_failure (t : Transport) (major minor : Int)
    (id : Nat) (buf : List Nat) (len v w : Nat) :
    ((t ADI_OTP_CMD_VERSION version_op).res ≠ TEEC_SUCCESS →
      (adi_otp_get_version t major minor).major = major ∧
      (adi_otp_get_version t major minor).minor = minor)
    ∧ ((t ADI_OTP_CMD_READ (read_op id buf len)).res ≠ TEEC_SUCCESS →
      (adi_otp_read t id buf len).len = len)
    ∧ ((t ADI_OTP_CMD_IS_VALID (is_valid_op id)).res ≠ TEEC_SUCCESS →
      (adi_otp_is_valid t id v).flag = v)
    ∧ ((t ADI_OTP_CMD_IS_WRITTEN (is_written_op id)).res ≠ TEEC_SUCCESS →
      (adi_otp_is_written t id w).flag = w) := by
  refine ⟨fun h => ?_, fun h => ?_, fun h => ?_, fun h => ?_⟩
  · rw [get_version_fail t major minor h]; exact ⟨rfl, rfl⟩
  · rw [read_fail t id buf len h]
  · rw [is_valid_fail t id v h]
  · rw [is_written_fail t id w h]

/-- Witness for C9: on `failTransport`, the out-parameters keep their
prior values (8, 9, 4, 6, 6). -/
theorem outputs_unchanged_on_failure_witness :
    (adi_otp_get_version failTransport 8 9).major = 8 ∧
    (adi_otp_get_version failTransport 8 9).minor = 9 ∧
    (adi_otp_read failTransport 3 [] 4).len = 4 ∧
    (adi_otp_is_valid failTransport 3 6).flag = 6 ∧
    (adi_otp_is_written failTransport 3 6).flag = 6 := by
  have h := outputs_unchanged_on_failure failTransport 8 9 3 [] 4 6 6
  exact ⟨(h.1 (by decide)).1, (h.1 (by decide)).2, h.2.1 (by decide),
    h.2.2.1 (by decide), h.2.2.2 (by decide)⟩

/-- C10: every status-returning operation returns 0 exactly when the
transport invocation reported `TEEC_SUCCESS`; for the version check, 0
exactly when the transport succeeded and the version policy passed; every
failure is a nonzero return. -/
theorem ret_zero_iff_success (t : Transport) (MAJ MIN major minor : Int)
    (id : Nat) (buf : List Nat) (len v w : Nat)
    (hwf : ∀ c op, (t c op).res < 2 ^ 32) :
    ((adi_otp_get_version t major minor).ret = 0 ↔
      (t ADI_OTP_CMD_VERSION version_op).res = TEEC_SUCCESS)
    ∧ ((adi_otp_read t id buf len).ret = 0 ↔
      (t ADI_OTP_CMD_READ (read_op id buf len)).res = TEEC_SUCCESS)
    ∧ ((adi_otp_write t id buf len).ret = 0 ↔
      (t ADI_OTP_CMD_WRITE (write_op id buf len)).res = TEEC_SUCCESS)
    ∧ ((adi_otp_invalidate t id).ret = 0 ↔
      (t ADI_OTP_CMD_INVALIDATE (invalidate_op id)).res = TEEC_SUCCESS)
    ∧ ((adi_otp_is_valid t id v).ret = 0 ↔
      (t ADI_OTP_CMD_IS_VALID (is_valid_op id)).res = TEEC_SUCCESS)
    ∧ ((adi_otp_is_written t id w).ret = 0 ↔
      (t ADI_OTP_CMD_IS_WRITTEN (is_written_op id)).res = TEEC_SUCCESS)
    ∧ ((adi_otp_is_locked t w).ret = 0 ↔
      (t ADI_OTP_CMD_IS_WRITTEN (is_written_op ADI_OTP_ID_lock)).res = TEEC_SUCCESS)
    ∧ ((adi_otp_lock t).ret = 0 ↔
      (t ADI_OTP_CMD_LOCK lock_op).res = TEEC_SUCCESS)
    ∧ ((adi_otp_check_version t MAJ MIN).ret = 0 ↔
      ((t ADI_OTP_CMD_VERSION version_op).res = TEEC_SUCCESS ∧
       toInt32 (t ADI_OTP_CMD_VERSION version_op).op.p0.a = MAJ ∧
       MIN ≤ toInt32 (t ADI_OTP_CMD_VERSION version_op).op.p0.b)) := by
  refine ⟨?_, ?_, ?_, ?_, ?_, ?_, ?_, ?_, ?_⟩
  · by_cases hs : (t ADI_OTP_CMD_VERSION version_op).res = TEEC_SUCCESS
    · rw [get_version_succ t major minor hs]; simp [hs]
    · rw [get_version_fail t major minor hs]
      simpa [TEEC_SUCCESS] using
        toInt32_eq_zero_iff (hwf ADI_OTP_CMD_VERSION version_op)
  · by_cases hs : (t ADI_OTP_CMD_READ (read_op id buf len)).res = TEEC_SUCCESS
    · rw [read_succ t id buf len hs]; simp [hs]
    · rw [read_fail t id buf len hs]
      simpa [TEEC_SUCCESS] using
        toInt32_eq_zero_iff (hwf ADI_OTP_CMD_READ (read_op id buf len))
  · by_cases hs : (t ADI_OTP_CMD_WRITE (write_op id buf len)).res = TEEC_SUCCESS
    · rw [write_succ t id buf len hs]; simp [hs]
    · rw [write_fail t id buf len hs]
      simpa [TEEC_SUCCESS] using
        toInt32_eq_zero_iff (hwf ADI_OTP_CMD_WRITE (write_op id buf len))
  · by_cases hs : (t ADI_OTP_CMD_INVALIDATE (invalidate_op id)).res = TEEC_SUCCESS
    · rw [invalidate_succ t id hs]; simp [hs]
    · rw [invalidate_fail t id hs]
      simpa [TEEC_SUCCESS] using
        toInt32_eq_zero_iff (hwf ADI_OTP_CMD_INVALIDATE (invalidate_op id))
  · by_cases hs : (t ADI_OTP_CMD_IS_VALID (is_valid_op id)).res = TEEC_SUCCESS
    · rw [is_valid_succ t id v hs]; simp [hs]
    · rw [is_valid_fail t id v hs]
      simpa [TEEC_SUCCESS] using
        toInt32_eq_zero_iff (hwf ADI_OTP_CMD_IS_VALID (is_valid_op id))
  · by_cases hs : (t ADI_OTP_CMD_IS_WRITTEN (is_written_op id)).res = TEEC_SUCCESS
    · rw [is_written_succ t id w hs]; simp [hs]
    · rw [is_written_fail t id w hs]
      simpa [TEEC_SUCCESS] using
        toInt32_eq_zero_iff (hwf ADI_OTP_CMD_IS_WRITTEN (is_written_op id))
  · show (adi_otp_is_written t ADI_OTP_ID_lock w).ret = 0 ↔ _
    by_cases hs :
        (t ADI_OTP_CMD_IS_WRITTEN (is_written_op ADI_OTP_ID_lock)).res = TEEC_SUCCESS
    · rw [is_written_succ t ADI_OTP_ID_lock w hs]; simp [hs]
    · rw [is_written_fail t ADI_OTP_ID_lock w hs]
      simpa [TEEC_SUCCESS] using
        toInt32_eq_zero_iff (hwf ADI_OTP_CMD_IS_WRITTEN (is_written_op ADI_OTP_ID_lock))
  · by_cases hs : (t ADI_OTP_CMD_LOCK lock_op).res = TEEC_SUCCESS
    · rw [lock_succ t hs]; simp [hs]
    · rw [lock_fail t hs]
      simpa [TEEC_SUCCESS] using toInt32_eq_zero_iff (hwf ADI_OTP_CMD_LOCK lock_op)
  · by_cases hs : (t ADI_OTP_CMD_VERSION version_op).res = TEEC_SUCCESS
    · rw [check_version_of_success t MAJ MIN hs]
      by_cases h1 : toInt32 (t ADI_OTP_CMD_VERSION version_op).op.p0.a = MAJ <;>
        by_cases h2 : toInt32 (t ADI_OTP_CMD_VERSION version_op).op.p0.b < MIN <;>
          (simp [h1, h2, hs, EINVAL]; try omega)
    · rw [check_version_of_fail t MAJ MIN hs
        (toInt32_ne_zero (hwf ADI_OTP_CMD_VERSION version_op)
          (by simpa [TEEC_SUCCESS] using hs))]
      simp only [hs, false_and, iff_false]
      exact toInt32_ne_zero (hwf ADI_OTP_CMD_VERSION version_op)
        (by simpa [TEEC_SUCCESS] using hs)

/-- Witness for C10: on `echoTransport` lock returns 0; on `failTransport`
it returns nonzero. -/
theorem ret_zero_iff_success_witness :
    (adi_otp_lock echoTransport).ret = 0 ∧ (adi_otp_lock failTransport).ret ≠ 0 := by
  have h1 := ret_zero_iff_success echoTransport 0 0 0 0 3 [] 4 0 0 echoTransport_wf
  have h2 := ret_zero_iff_success failTransport 0 0 0 0 3 [] 4 0 0 failTransport_wf
  exact ⟨(h1.2.2.2.2.2.2.2.1).mpr rfl,
    fun hz => absurd ((h2.2.2.2.2.2.2.2.1).mp hz) (by decide)⟩

end Libadiotp
